import Mathlib

/-!
Shallow embedding of the homelab-inventory server (TypeScript + Drizzle/Postgres).

Sources embedded:
 - `src/server/src/schema.ts` (zod input schemas; validation predicates)
 - `src/server/src/db/schema.ts` (table shapes, cascade rule on relationships)
 - `src/server/src/handlers/create_device.ts` (`createDevice`)
 - `src/server/src/handlers/create_device_relationship.ts`
   (`createDeviceRelationship`, `getDeviceRelationships`)
 - `src/server/src/handlers/delete_device.ts` (`deleteDevice`)
 - `src/server/src/handlers/delete_device_relationship.ts` (`deleteDeviceRelationship`)
 - `get_device_by_id.ts` (`getDeviceById`), `update_device.ts` (`updateDevice`),
   `update_device_relationship.ts` (`updateDeviceRelationship`)

Modelling conventions:
 - SQL NULL / JS null on a stored column is `Option`.
 - A zod field that is both `.nullable()` and `.optional()` is `Option (Option α)`:
   the outer layer is presence (undefined vs supplied), the inner layer is null.
 - `real` columns (ram, storage_capacity) are `ℚ`.
 - Timestamps are an abstract monotone clock: the database state carries `now : Nat`
   and every write that stamps a row first ticks the clock, matching the tests'
   expectation that a later write carries a strictly larger timestamp.
 - A thrown `Error(msg)` is `Except.error msg`; a handler that also changes the
   store returns the new store in the `ok` payload (an error leaves it unchanged,
   as the exception aborts before any insert/update).
 - zod's `.ip()` format check is abstracted to the only consequence the handlers
   rely on, non-emptiness of the string (the explicit `.refine` in
   `createDeviceInputSchema` re-checks exactly that).
-/

/-- Device type enum (`deviceTypeEnum`, schema.ts line 4). -/
inductive DeviceType
  | physical_server
  | virtual_machine
  | router
  | switch
  | access_point
  | storage
  deriving DecidableEq, Repr

/-- Device status enum (`deviceStatusEnum`, schema.ts line 8). -/
inductive DeviceStatus
  | online
  | offline
  | maintenance
  | error
  deriving DecidableEq, Repr

/-- Relationship type enum (`relationshipTypeEnum`, schema.ts line 12). -/
inductive RelationshipType
  | hosted_on
  | connected_to
  | manages
  | stores_on
  deriving DecidableEq, Repr

/-- A row of the `devices` table (db/schema.ts lines 29-44). -/
structure Device where
  id : Nat
  name : String
  type : DeviceType
  ip_address : Option String
  make : Option String
  model : Option String
  operating_system : Option String
  cpu : Option String
  ram : Option ℚ
  storage_capacity : Option ℚ
  status : DeviceStatus
  notes : Option String
  created_at : Nat
  updated_at : Nat
  deriving DecidableEq, Repr

/-- A row of the `device_relationships` table (db/schema.ts lines 47-54). -/
structure DeviceRelationship where
  id : Nat
  parent_device_id : Nat
  child_device_id : Nat
  relationship_type : RelationshipType
  description : Option String
  created_at : Nat
  deriving DecidableEq, Repr

/-- The persistent store: both tables plus the serial-id counters and the clock. -/
structure DB where
  devices : List Device
  relationships : List DeviceRelationship
  nextDeviceId : Nat
  nextRelId : Nat
  now : Nat
  deriving DecidableEq, Repr

/-- The freshly created store: empty tables, serial counters at 1. -/
def emptyDB : DB :=
  { devices := [], relationships := [], nextDeviceId := 1, nextRelId := 1, now := 0 }

/-- JS `x || null` on a nullable-optional string field: undefined, null and the
empty string (the only falsy non-null string) all become SQL NULL. -/
def orNullStr : Option (Option String) → Option String
  | some (some s) => if s = "" then none else some s
  | _ => none

/-- JS `x || null` on a nullable-optional number field: undefined, null and 0
(the falsy number) become SQL NULL. -/
def orNullNum : Option (Option ℚ) → Option ℚ
  | some (some q) => if q = 0 then none else some q
  | _ => none

/-- Parsed output of `createDeviceInputSchema` (schema.ts lines 36-57). `status`
has a zod default, so it is always present after parsing. -/
structure CreateDeviceInput where
  name : String
  type : DeviceType
  ip_address : Option (Option String)
  make : Option (Option String)
  model : Option (Option String)
  operating_system : Option (Option String)
  cpu : Option (Option String)
  ram : Option (Option ℚ)
  storage_capacity : Option (Option ℚ)
  status : DeviceStatus
  notes : Option (Option String)
  deriving DecidableEq, Repr

/-- Constraints `createDeviceInputSchema` imposes beyond the shape: non-empty
name, positive ram and storage when supplied non-null, and the `.refine` that a
supplied non-null ip string is non-empty (the `.ip()` format check only
strengthens this; see the header note). -/
def validCreateDeviceInput (i : CreateDeviceInput) : Bool :=
  i.name ≠ "" &&
  (match i.ram with | some (some q) => decide (0 < q) | _ => true) &&
  (match i.storage_capacity with | some (some q) => decide (0 < q) | _ => true) &&
  (match i.ip_address with | some (some s) => s ≠ "" | _ => true)

/-- `createDevice` (handlers/create_device.ts lines 5-32): inserts a row built
from the input, applying `|| null` to every optional column, and returns it.
The row takes the next serial id and the insert timestamps both `created_at`
and `updated_at` with the current time (`defaultNow()` on both columns). -/
def createDevice (db : DB) (input : CreateDeviceInput) : Device × DB :=
  let t := db.now + 1
  let d : Device :=
    { id := db.nextDeviceId
      name := input.name
      type := input.type
      ip_address := orNullStr input.ip_address
      make := orNullStr input.make
      model := orNullStr input.model
      operating_system := orNullStr input.operating_system
      cpu := orNullStr input.cpu
      ram := orNullNum input.ram
      storage_capacity := orNullNum input.storage_capacity
      status := input.status
      notes := orNullStr input.notes
      created_at := t
      updated_at := t }
  (d, { db with
          devices := db.devices ++ [d]
          nextDeviceId := db.nextDeviceId + 1
          now := t })

/-- `getDeviceById` (get_device_by_id.ts lines 6-30): select where id matches,
null when the result set is empty, otherwise the first row (ram and
storage_capacity pass through unchanged). -/
def getDeviceById (db : DB) (id : Nat) : Option Device :=
  (db.devices.filter (fun d => d.id == id)).head?

/-- Well-formedness the storage engine maintains for `devices`: serial ids are
below the counter (hence fresh ids never collide), ids are pairwise distinct
(primary key), and row timestamps never run ahead of the clock. -/
def WFDevices (db : DB) : Prop :=
  (∀ d ∈ db.devices, d.id < db.nextDeviceId) ∧
  (db.devices.map Device.id).Nodup ∧
  (∀ d ∈ db.devices, d.updated_at ≤ db.now)

/-- Select-where-id-equals emptiness test used by both relationship handlers
before touching a device id (`db.select().from(devicesTable).where(eq(id, x))`
followed by a `.length === 0` check). -/
def deviceExists (db : DB) (id : Nat) : Bool :=
  db.devices.any (fun d => d.id == id)

/-- Parsed output of `updateDeviceInputSchema` (schema.ts lines 62-75): every
field but `id` is optional; `name`, `type` and `status` are not nullable. -/
structure UpdateDeviceInput where
  id : Nat
  name : Option String
  type : Option DeviceType
  ip_address : Option (Option String)
  make : Option (Option String)
  model : Option (Option String)
  operating_system : Option (Option String)
  cpu : Option (Option String)
  ram : Option (Option ℚ)
  storage_capacity : Option (Option ℚ)
  status : Option DeviceStatus
  notes : Option (Option String)
  deriving DecidableEq, Repr

/-- Whether `updateDevice`'s `updateData` object holds any column besides the
always-present `updated_at`: true exactly when some updatable field was
supplied (update_device.ts lines 13-45, 51). -/
def hasUpdates (i : UpdateDeviceInput) : Bool :=
  i.name.isSome || i.type.isSome || i.ip_address.isSome || i.make.isSome ||
  i.model.isSome || i.operating_system.isSome || i.cpu.isSome || i.ram.isSome ||
  i.storage_capacity.isSome || i.status.isSome || i.notes.isSome

/-- Effect of `SET updateData` on one row: each supplied field overwrites the
column (a supplied null clears it), absent fields are untouched, and
`updated_at` is set to the write time (update_device.ts lines 13-48). -/
def applyDevicePatch (d : Device) (i : UpdateDeviceInput) (t : Nat) : Device :=
  { d with
    name := i.name.getD d.name
    type := i.type.getD d.type
    ip_address := i.ip_address.getD d.ip_address
    make := i.make.getD d.make
    model := i.model.getD d.model
    operating_system := i.operating_system.getD d.operating_system
    cpu := i.cpu.getD d.cpu
    ram := i.ram.getD d.ram
    storage_capacity := i.storage_capacity.getD d.storage_capacity
    status := i.status.getD d.status
    notes := i.notes.getD d.notes
    updated_at := t }

/-- `updateDevice` (update_device.ts lines 6-77): null when no updatable field
was supplied; otherwise `UPDATE ... WHERE id = input.id RETURNING`, which
patches every matching row and returns the first updated row, or null (and an
unchanged store) when no row matched. -/
def updateDevice (db : DB) (input : UpdateDeviceInput) : Option Device × DB :=
  if hasUpdates input = false then (none, db)
  else if db.devices.any (fun d => d.id == input.id) then
    let t := db.now + 1
    let updated := db.devices.map
      (fun d => if d.id == input.id then applyDevicePatch d input t else d)
    ((updated.filter (fun d => d.id == input.id)).head?,
     { db with devices := updated, now := t })
  else (none, db)

/-- `deleteDevice` (delete_device.ts lines 15-29) together with the storage
engine's `onDelete: cascade` rule on both foreign keys of
`device_relationships` (db/schema.ts lines 49-50): the matching device rows
are removed, every relationship referencing the id as parent or child is
removed by the cascade, and success reports whether any device row matched. -/
def deleteDevice (db : DB) (id : Nat) : Bool × DB :=
  (db.devices.any (fun d => d.id == id),
   { db with
       devices := db.devices.filter (fun d => d.id != id)
       relationships := db.relationships.filter
         (fun r => r.parent_device_id != id && r.child_device_id != id) })

/-- Parsed output of `createDeviceRelationshipInputSchema`
(schema.ts lines 92-100). -/
structure CreateDeviceRelationshipInput where
  parent_device_id : Nat
  child_device_id : Nat
  relationship_type : RelationshipType
  description : Option (Option String)
  deriving DecidableEq, Repr

/-- Constraints of `createDeviceRelationshipInputSchema`: positive integer ids
and the `.refine` that parent and child differ. The predicate consults no
store: the self-relationship check is purely structural and runs during input
parsing, before the handler performs any device lookup. -/
def validCreateDeviceRelationshipInput (i : CreateDeviceRelationshipInput) : Bool :=
  decide (0 < i.parent_device_id) && decide (0 < i.child_device_id) &&
  i.parent_device_id != i.child_device_id

/-- `createDeviceRelationship` (create_device_relationship.ts lines 6-44):
checks the parent id, then the child id, each against a select-by-id; a
missing side throws an error naming that id; otherwise the row is inserted
(description passed through `|| null`) and returned. -/
def createDeviceRelationship (db : DB) (input : CreateDeviceRelationshipInput) :
    Except String (DeviceRelationship × DB) :=
  if deviceExists db input.parent_device_id = false then
    Except.error ("Parent device with ID " ++ toString input.parent_device_id ++
      " does not exist")
  else if deviceExists db input.child_device_id = false then
    Except.error ("Child device with ID " ++ toString input.child_device_id ++
      " does not exist")
  else
    let t := db.now + 1
    let r : DeviceRelationship :=
      { id := db.nextRelId
        parent_device_id := input.parent_device_id
        child_device_id := input.child_device_id
        relationship_type := input.relationship_type
        description := orNullStr input.description
        created_at := t }
    Except.ok (r, { db with
                      relationships := db.relationships ++ [r]
                      nextRelId := db.nextRelId + 1
                      now := t })

/-- Parsed output of `getDeviceRelationshipsInputSchema`
(schema.ts lines 141-144): two optional filters. -/
structure GetDeviceRelationshipsInput where
  device_id : Option Nat
  relationship_type : Option RelationshipType
  deriving DecidableEq, Repr

/-- The `or(eq(parent, did), eq(child, did))` condition pushed when a
`device_id` filter is supplied; no filter matches everything. -/
def relMatchesDevice (r : DeviceRelationship) (oid : Option Nat) : Bool :=
  match oid with
  | none => true
  | some did => r.parent_device_id == did || r.child_device_id == did

/-- The `eq(relationship_type, rt)` condition pushed when a type filter is
supplied; no filter matches everything. -/
def relMatchesType (r : DeviceRelationship) (ot : Option RelationshipType) : Bool :=
  match ot with
  | none => true
  | some rt => r.relationship_type == rt

/-- `getDeviceRelationships` (create_device_relationship.ts lines 57-93):
selects the relationships satisfying the conjunction of whichever filters were
supplied (all rows when neither is). -/
def getDeviceRelationships (db : DB) (input : GetDeviceRelationshipsInput) :
    List DeviceRelationship :=
  db.relationships.filter
    (fun r => relMatchesDevice r input.device_id &&
      relMatchesType r input.relationship_type)

/-- Parsed output of `updateDeviceRelationshipInputSchema`
(schema.ts lines 105-111). Unlike the create schema it carries no
parent-not-equal-child refine. -/
structure UpdateDeviceRelationshipInput where
  id : Nat
  parent_device_id : Option Nat
  child_device_id : Option Nat
  relationship_type : Option RelationshipType
  description : Option (Option String)
  deriving DecidableEq, Repr

/-- Whether `updateDeviceRelationship`'s `updateData` object is empty
(update_device_relationship.ts lines 59-78). -/
def hasRelUpdates (i : UpdateDeviceRelationshipInput) : Bool :=
  i.parent_device_id.isSome || i.child_device_id.isSome ||
  i.relationship_type.isSome || i.description.isSome

/-- Effect of the relationship `SET updateData` on one row: supplied fields
overwrite, absent fields are untouched (`description` passes through with no
falsy coercion here), and `created_at` is never touched. -/
def applyRelPatch (r : DeviceRelationship) (i : UpdateDeviceRelationshipInput) :
    DeviceRelationship :=
  { r with
    parent_device_id := i.parent_device_id.getD r.parent_device_id
    child_device_id := i.child_device_id.getD r.child_device_id
    relationship_type := i.relationship_type.getD r.relationship_type
    description := i.description.getD r.description }

/-- Per-side existence check of `updateDeviceRelationship`
(update_device_relationship.ts lines 28-48): skipped when the side is not
being updated, otherwise an error message naming the role and id when the
select-by-id comes back empty. -/
def relDeviceCheck (db : DB) (role : String) (oid : Option Nat) : Option String :=
  match oid with
  | none => none
  | some did =>
    if deviceExists db did then none
    else some (role ++ " device with ID " ++ toString did ++ " does not exist")

/-- Tail of `updateDeviceRelationship` after both existence checks
(update_device_relationship.ts lines 50-89): the merged (parent, child) pair —
supplied value where given, prior value otherwise — must differ, an empty
patch returns the existing row with the store untouched, and otherwise the
patch is applied to the matching row and the updated row returned. -/
def relSelfCheckAndApply (db : DB) (input : UpdateDeviceRelationshipInput)
    (existing : DeviceRelationship) : Except String (Option DeviceRelationship × DB) :=
  if input.parent_device_id.getD existing.parent_device_id ==
      input.child_device_id.getD existing.child_device_id then
    Except.error "A device cannot have a relationship with itself"
  else if hasRelUpdates input = false then
    Except.ok (some existing, db)
  else
    Except.ok (((db.relationships.map (fun r => if r.id == input.id then applyRelPatch r input else r)).filter (fun r => r.id == input.id)).head?,
      { db with relationships := db.relationships.map (fun r => if r.id == input.id then applyRelPatch r input else r) })

/-- `updateDeviceRelationship` (update_device_relationship.ts lines 15-94):
null when no relationship row has the id; then the parent check, the child
check, and the self-relationship check and patch application, in that order. -/
def updateDeviceRelationship (db : DB) (input : UpdateDeviceRelationshipInput) :
    Except String (Option DeviceRelationship × DB) :=
  match (db.relationships.filter (fun r => r.id == input.id)).head? with
  | none => Except.ok (none, db)
  | some existing =>
    match relDeviceCheck db "Parent" input.parent_device_id with
    | some e => Except.error e
    | none =>
      match relDeviceCheck db "Child" input.child_device_id with
      | some e => Except.error e
      | none => relSelfCheckAndApply db input existing

/-- `deleteDeviceRelationship` (delete_device_relationship.ts lines 6-21):
deletes the matching rows, success reports whether any row matched. -/
def deleteDeviceRelationship (db : DB) (id : Nat) : Bool × DB :=
  (db.relationships.any (fun r => r.id == id),
   { db with relationships := db.relationships.filter (fun r => r.id != id) })

/-- The relationship-table invariant of the data model: no self-relationship,
and both sides reference an existing device row. -/
def RelInvariant (db : DB) : Prop :=
  ∀ r ∈ db.relationships,
    r.parent_device_id ≠ r.child_device_id ∧
    deviceExists db r.parent_device_id = true ∧
    deviceExists db r.child_device_id = true

/-- Stores reachable from the fresh store through the API operations. Mutating
inputs pass their zod schema at the router before the handler runs
(index.ts, the tRPC router), so reachability carries the schema's validity for
the two create operations; a relationship call that throws leaves the store
as it was, so only `ok` outcomes step. -/
inductive Reachable : DB → Prop
  | empty : Reachable emptyDB
  | createDev (db : DB) (input : CreateDeviceInput) (h : Reachable db)
      (hv : validCreateDeviceInput input = true) :
      Reachable (createDevice db input).2
  | updateDev (db : DB) (input : UpdateDeviceInput) (h : Reachable db) :
      Reachable (updateDevice db input).2
  | deleteDev (db : DB) (id : Nat) (h : Reachable db) :
      Reachable (deleteDevice db id).2
  | createRel (db : DB) (input : CreateDeviceRelationshipInput)
      (r : DeviceRelationship) (db2 : DB) (h : Reachable db)
      (hv : validCreateDeviceRelationshipInput input = true)
      (hok : createDeviceRelationship db input = Except.ok (r, db2)) :
      Reachable db2
  | updateRel (db : DB) (input : UpdateDeviceRelationshipInput)
      (res : Option DeviceRelationship) (db2 : DB) (h : Reachable db)
      (hok : updateDeviceRelationship db input = Except.ok (res, db2)) :
      Reachable db2
  | deleteRel (db : DB) (id : Nat) (h : Reachable db) :
      Reachable (deleteDeviceRelationship db id).2

/-! Helper lemmas shared by the per-claim theorems. -/

/-- A head of a filtered list is a member satisfying the filter. -/
theorem filter_head_some_mem {α : Type} (p : α → Bool) (l : List α) (a : α)
    (h : (l.filter p).head? = some a) : a ∈ l ∧ p a = true := by
  have hma : a ∈ l.filter p := List.mem_of_mem_head? h
  exact ⟨(List.mem_filter.mp hma).1, (List.mem_filter.mp hma).2⟩

/-- In a list whose keys are pairwise distinct, two members with the same key
coincide. -/
theorem nodup_key_unique {α : Type} (key : α → Nat) (l : List α)
    (hnd : (l.map key).Nodup) (x y : α) (hx : x ∈ l) (hy : y ∈ l)
    (hk : key x = key y) : x = y :=
  List.inj_on_of_nodup_map hnd hx hy hk

/-- Patching exactly the rows with a given key and then selecting that key
yields exactly the patched target row, when keys are pairwise distinct, the
patch preserves the key, and the target is a member carrying the key. -/
theorem map_patch_filter_eq {α : Type} (key : α → Nat) (f : α → α) (l : List α)
    (i : Nat) (hf : ∀ x, key (f x) = key x) (hnd : (l.map key).Nodup)
    (d : α) (hmem : d ∈ l) (hid : key d = i) :
    (l.map (fun x => if key x == i then f x else x)).filter
      (fun x => key x == i) = [f d] := by
  induction l with
  | nil => cases hmem
  | cons a tl ih =>
    simp only [List.map_cons, List.nodup_cons, List.mem_map] at hnd
    by_cases ha : key a = i
    · have htl : ∀ x ∈ tl, key x ≠ i := by
        intro x hx hxi
        exact hnd.1 ⟨x, hx, by rw [hxi, ha]⟩
      have hda : d = a := by
        rcases List.mem_cons.mp hmem with h1 | h1
        · exact h1
        · exact absurd hid (htl d h1)
      subst hda
      simp only [List.map_cons, List.filter_cons]
      simp [ha, hf]
      intro x hx
      rw [if_neg (htl x hx)]
      exact htl x hx
    · have hdtl : d ∈ tl := by
        rcases List.mem_cons.mp hmem with h1 | h1
        · exact absurd (h1 ▸ hid) ha
        · exact h1
      simpa [ha] using ih hnd.2 hdtl

/-- Patching the rows with a given key is, pointwise, the constant replacement
by the patched target when keys are pairwise distinct. -/
theorem map_patch_congr {α : Type} (key : α → Nat) (f : α → α) (l : List α)
    (i : Nat) (hnd : (l.map key).Nodup) (d : α) (hmem : d ∈ l) (hid : key d = i) :
    l.map (fun x => if key x == i then f x else x) =
      l.map (fun x => if key x == i then f d else x) := by
  apply List.map_congr_left
  intro x hx
  by_cases hxi : key x = i
  · have hxd : x = d := nodup_key_unique key l hnd x d hx hmem (by rw [hxi, hid])
    subst hxd
    rfl
  · have : (key x == i) = false := by simpa using hxi
    rw [this]
    simp

/-- Membership in the list of existing devices makes `deviceExists` true. -/
theorem deviceExists_of_mem (db : DB) (d : Device) (hmem : d ∈ db.devices) :
    deviceExists db d.id = true := by
  simp only [deviceExists, List.any_eq_true]
  exact ⟨d, hmem, by simp⟩

/-- Conversely, `deviceExists` true produces a witness row. -/
theorem mem_of_deviceExists (db : DB) (i : Nat) (h : deviceExists db i = true) :
    ∃ d ∈ db.devices, d.id = i := by
  simp only [deviceExists, List.any_eq_true] at h
  rcases h with ⟨d, hd, hdi⟩
  exact ⟨d, hd, by simpa using hdi⟩

/-! Concrete fixtures for witnesses and counterexamples. -/

/-- A minimal stored device with id 1. -/
def devAlpha : Device :=
  { id := 1, name := "alpha", type := DeviceType.physical_server, ip_address := none,
    make := none, model := none, operating_system := none, cpu := none, ram := none,
    storage_capacity := none, status := DeviceStatus.offline, notes := none,
    created_at := 1, updated_at := 1 }

/-- A minimal stored device with id 2. -/
def devBeta : Device :=
  { id := 2, name := "beta", type := DeviceType.virtual_machine, ip_address := none,
    make := none, model := none, operating_system := none, cpu := none, ram := none,
    storage_capacity := none, status := DeviceStatus.offline, notes := none,
    created_at := 2, updated_at := 2 }

/-- A store holding the two devices and no relationship. -/
def twoDevDB : DB :=
  { devices := [devAlpha, devBeta], relationships := [], nextDeviceId := 3,
    nextRelId := 1, now := 2 }

/-- A stored relationship linking device 1 over device 2. -/
def relAB : DeviceRelationship :=
  { id := 1, parent_device_id := 1, child_device_id := 2,
    relationship_type := RelationshipType.hosted_on, description := none,
    created_at := 2 }

/-- A store holding the two devices and the one relationship. -/
def relDB : DB :=
  { devices := [devAlpha, devBeta], relationships := [relAB], nextDeviceId := 3,
    nextRelId := 2, now := 2 }

/-- A create-device input supplying every optional free-text field as the empty
string (all of which zod accepts). -/
def emptyTextInput : CreateDeviceInput :=
  { name := "gamma", type := DeviceType.router, ip_address := none,
    make := some (some ""), model := some (some ""),
    operating_system := some (some ""), cpu := some (some ""), ram := none,
    storage_capacity := none, status := DeviceStatus.offline,
    notes := some (some "") }

/-- A create-relationship input with an empty-string description. -/
def emptyDescRelInput : CreateDeviceRelationshipInput :=
  { parent_device_id := 1, child_device_id := 2,
    relationship_type := RelationshipType.hosted_on,
    description := some (some "") }

/-- The relationship row `createDeviceRelationship twoDevDB emptyDescRelInput`
produces. -/
def emptyDescRelOut : DeviceRelationship :=
  { id := 1, parent_device_id := 1, child_device_id := 2,
    relationship_type := RelationshipType.hosted_on, description := none,
    created_at := 3 }

/-- The store `createDeviceRelationship twoDevDB emptyDescRelInput` produces. -/
def emptyDescRelOutDB : DB :=
  { devices := [devAlpha, devBeta], relationships := [emptyDescRelOut],
    nextDeviceId := 3, nextRelId := 2, now := 3 }

/-! Claim theorems. -/

/-- C10: for a validated createDevice input supplying an optional free-text
field (make, model, operating_system, cpu, notes) as the empty string, the
created (and stored) row holds null in that field, because JS `|| null`
coerces the falsy empty string to null; createDeviceRelationship likewise
stores an empty-string description as null. -/
theorem create_empty_string_fields_become_null
    (db rdb rdb2 : DB) (input : CreateDeviceInput)
    (rinput : CreateDeviceRelationshipInput) (r : DeviceRelationship)
    (_hvalid : validCreateDeviceInput input = true) :
    ((createDevice db input).1 ∈ (createDevice db input).2.devices) ∧
    (input.make = some (some "") → (createDevice db input).1.make = none) ∧
    (input.model = some (some "") → (createDevice db input).1.model = none) ∧
    (input.operating_system = some (some "") →
      (createDevice db input).1.operating_system = none) ∧
    (input.cpu = some (some "") → (createDevice db input).1.cpu = none) ∧
    (input.notes = some (some "") → (createDevice db input).1.notes = none) ∧
    (rinput.description = some (some "") →
      createDeviceRelationship rdb rinput = Except.ok (r, rdb2) →
      r.description = none ∧ r ∈ rdb2.relationships) := by
  refine ⟨?_, ?_, ?_, ?_, ?_, ?_, ?_⟩
  · simp [createDevice]
  · intro h; simp [createDevice, orNullStr, h]
  · intro h; simp [createDevice, orNullStr, h]
  · intro h; simp [createDevice, orNullStr, h]
  · intro h; simp [createDevice, orNullStr, h]
  · intro h; simp [createDevice, orNullStr, h]
  · intro hdesc hok
    by_cases hp : deviceExists rdb rinput.parent_device_id = false
    · simp [createDeviceRelationship, hp] at hok
    · by_cases hc : deviceExists rdb rinput.child_device_id = false
      · simp [createDeviceRelationship, hp, hc] at hok
      · simp [createDeviceRelationship, hp, hc] at hok
        rcases hok with ⟨hr, hdb2⟩
        subst hr
        subst hdb2
        simp [orNullStr, hdesc]

/-- Witness for C10 at concrete inputs: the empty-string fields of
`emptyTextInput` come back null, and an empty-string relationship description
is stored null. -/
theorem create_empty_string_fields_become_null_witness :
    (createDevice emptyDB emptyTextInput).1.make = none ∧
    emptyDescRelOut.description = none ∧
    emptyDescRelOut ∈ emptyDescRelOutDB.relationships :=
  ⟨(create_empty_string_fields_become_null emptyDB twoDevDB emptyDescRelOutDB
      emptyTextInput emptyDescRelInput emptyDescRelOut (by decide)).2.1 rfl,
   (create_empty_string_fields_become_null emptyDB twoDevDB emptyDescRelOutDB
      emptyTextInput emptyDescRelInput emptyDescRelOut (by decide)).2.2.2.2.2.2
     rfl rfl⟩

/-- C4: membership in `getDeviceRelationships db input` is exactly membership
in the stored relationships together with, when a device_id filter is given,
that id being parent OR child, and, when a relationship_type filter is given,
the type matching — so each of the four filter combinations returns exactly
the claimed set. -/
theorem getDeviceRelationships_exact_filter (db : DB)
    (input : GetDeviceRelationshipsInput) (r : DeviceRelationship) :
    r ∈ getDeviceRelationships db input ↔
      r ∈ db.relationships ∧
      (∀ did, input.device_id = some did →
        (r.parent_device_id = did ∨ r.child_device_id = did)) ∧
      (∀ rt, input.relationship_type = some rt → r.relationship_type = rt) := by
  obtain ⟨od, ot⟩ := input
  simp only [getDeviceRelationships, List.mem_filter, Bool.and_eq_true]
  cases od <;> cases ot <;> simp [relMatchesDevice, relMatchesType]

/-- C6: updateDevice returns null and leaves the store untouched when no
updatable field besides id was supplied, and likewise when no device row has
the given id. -/
theorem updateDevice_noop_returns_null (db : DB) (input : UpdateDeviceInput)
    (h : hasUpdates input = false ∨ ∀ d ∈ db.devices, d.id ≠ input.id) :
    updateDevice db input = (none, db) := by
  rcases h with h | h
  · simp [updateDevice, h]
  · by_cases hu : hasUpdates input = false
    · simp [updateDevice, hu]
    · have hany : db.devices.any (fun d => d.id == input.id) = false := by
        rw [List.any_eq_false]
        intro d hd
        simp [h d hd]
      simp [updateDevice, hu, hany]

/-- An update input supplying no updatable field. -/
def noFieldUpdInput : UpdateDeviceInput :=
  { id := 1, name := none, type := none, ip_address := none, make := none,
    model := none, operating_system := none, cpu := none, ram := none,
    storage_capacity := none, status := none, notes := none }

/-- Witness for C6: the empty update on the two-device store is a null no-op. -/
theorem updateDevice_noop_returns_null_witness :
    updateDevice twoDevDB noFieldUpdInput = (none, twoDevDB) :=
  updateDevice_noop_returns_null twoDevDB noFieldUpdInput (by decide)

/-- C3: for a create-relationship input with distinct parent and child ids, a
missing parent id fails with the error naming the parent id (with no
assumption on the child, so the parent check fires first when both are
missing); a present parent with a missing child fails with the error naming
the child id; and when both exist the new row is inserted and returned. -/
theorem createDeviceRelationship_checks (db : DB)
    (input : CreateDeviceRelationshipInput)
    (_hne : input.parent_device_id ≠ input.child_device_id) :
    (deviceExists db input.parent_device_id = false →
      createDeviceRelationship db input = Except.error
        ("Parent device with ID " ++ toString input.parent_device_id ++
          " does not exist")) ∧
    (deviceExists db input.parent_device_id = true →
      deviceExists db input.child_device_id = false →
      createDeviceRelationship db input = Except.error
        ("Child device with ID " ++ toString input.child_device_id ++
          " does not exist")) ∧
    (deviceExists db input.parent_device_id = true →
      deviceExists db input.child_device_id = true →
      ∃ r db2, createDeviceRelationship db input = Except.ok (r, db2) ∧
        r.parent_device_id = input.parent_device_id ∧
        r.child_device_id = input.child_device_id ∧
        r.relationship_type = input.relationship_type ∧
        db2.relationships = db.relationships ++ [r] ∧
        db2.devices = db.devices) := by
  refine ⟨?_, ?_, ?_⟩
  · intro hp; simp [createDeviceRelationship, hp]
  · intro hp hc; simp [createDeviceRelationship, hp, hc]
  · intro hp hc
    have h1 : (deviceExists db input.parent_device_id = false) = False := by
      simp [hp]
    have h2 : (deviceExists db input.child_device_id = false) = False := by
      simp [hc]
    simp only [createDeviceRelationship, h1, h2, if_false]
    exact ⟨_, _, rfl, rfl, rfl, rfl, rfl, rfl⟩

/-- A create-relationship input whose parent id matches no device. -/
def missingParentRelInput : CreateDeviceRelationshipInput :=
  { parent_device_id := 99, child_device_id := 2,
    relationship_type := RelationshipType.connected_to, description := none }

/-- Witness for C3: creating with the unknown parent id 99 on the two-device
store fails with the error naming 99. -/
theorem createDeviceRelationship_checks_witness :
    createDeviceRelationship twoDevDB missingParentRelInput = Except.error
      ("Parent device with ID " ++ toString missingParentRelInput.parent_device_id ++
        " does not exist") :=
  (createDeviceRelationship_checks twoDevDB missingParentRelInput (by decide)).1
    (by decide)

/-- With no empty string supplied, the `|| null` coercion on a string field is
plain flattening of presence and null. -/
theorem orNullStr_eq_join (x : Option (Option String)) (h : x ≠ some (some "")) :
    orNullStr x = x.join := by
  match x with
  | none => rfl
  | some none => rfl
  | some (some s) =>
    have hs : s ≠ "" := fun he => h (by rw [he])
    show (if s = "" then none else some s) = some s
    rw [if_neg hs]

/-- With no zero supplied, the `|| null` coercion on a number field is plain
flattening of presence and null. -/
theorem orNullNum_eq_join (x : Option (Option ℚ)) (h : ∀ q, x = some (some q) → q ≠ 0) :
    orNullNum x = x.join := by
  match x with
  | none => rfl
  | some none => rfl
  | some (some q) =>
    show (if q = 0 then none else some q) = some q
    rw [if_neg (h q rfl)]

/-- A schema-valid create input never supplies the empty string as ip. -/
theorem valid_ip_ne_empty (i : CreateDeviceInput)
    (h : validCreateDeviceInput i = true) : i.ip_address ≠ some (some "") := by
  intro he
  rw [validCreateDeviceInput, he] at h
  simp at h

/-- A schema-valid create input never supplies ram 0 (ram must be positive). -/
theorem valid_ram_ne_zero (i : CreateDeviceInput)
    (h : validCreateDeviceInput i = true) : ∀ q, i.ram = some (some q) → q ≠ 0 := by
  intro q he hq
  rw [validCreateDeviceInput, he, hq] at h
  simp at h

/-- A schema-valid create input never supplies storage 0 (must be positive). -/
theorem valid_storage_ne_zero (i : CreateDeviceInput)
    (h : validCreateDeviceInput i = true) :
    ∀ q, i.storage_capacity = some (some q) → q ≠ 0 := by
  intro q he hq
  rw [validCreateDeviceInput, he, hq] at h
  simp at h

/-- Counterexample to C1 as stated: `emptyTextInput` is a valid createDevice
input supplying make as the empty string, yet the device fetched back by the
returned id carries make null, not the supplied empty string. -/
theorem createDevice_roundtrip_counterexample :
    validCreateDeviceInput emptyTextInput = true ∧
    emptyTextInput.make = some (some "") ∧
    (getDeviceById (createDevice emptyDB emptyTextInput).2
        (createDevice emptyDB emptyTextInput).1.id).map Device.make = some none ∧
    some (none : Option String) ≠ some (some "") := by decide

/-- C1 (amended): for a well-formed store and a valid createDevice input none
of whose optional free-text fields is supplied as the empty string, fetching
the created device by the returned id yields a row whose fields are exactly
the supplied values, with fields supplied as null (and absent fields) coming
back as null. -/
theorem createDevice_getDeviceById_roundtrip (db : DB) (input : CreateDeviceInput)
    (hwf : ∀ d ∈ db.devices, d.id < db.nextDeviceId)
    (hvalid : validCreateDeviceInput input = true)
    (hmake : input.make ≠ some (some "")) (hmodel : input.model ≠ some (some ""))
    (hos : input.operating_system ≠ some (some ""))
    (hcpu : input.cpu ≠ some (some "")) (hnotes : input.notes ≠ some (some "")) :
    ∃ d, getDeviceById (createDevice db input).2 (createDevice db input).1.id = some d ∧
      d.name = input.name ∧ d.type = input.type ∧
      d.ip_address = input.ip_address.join ∧ d.make = input.make.join ∧
      d.model = input.model.join ∧
      d.operating_system = input.operating_system.join ∧
      d.cpu = input.cpu.join ∧ d.ram = input.ram.join ∧
      d.storage_capacity = input.storage_capacity.join ∧
      d.status = input.status ∧ d.notes = input.notes.join := by
  have hold : db.devices.filter (fun x => x.id == db.nextDeviceId) = [] := by
    rw [List.filter_eq_nil_iff]
    intro x hx
    have hlt := hwf x hx
    simp only [beq_iff_eq]
    omega
  refine ⟨(createDevice db input).1, ?_, rfl, rfl, ?_, ?_, ?_, ?_, ?_, ?_, ?_, rfl, ?_⟩
  · show ((db.devices ++ [(createDevice db input).1]).filter
      (fun x => x.id == db.nextDeviceId)).head? = _
    rw [List.filter_append, hold]
    simp [createDevice]
  · exact orNullStr_eq_join _ (valid_ip_ne_empty input hvalid)
  · exact orNullStr_eq_join _ hmake
  · exact orNullStr_eq_join _ hmodel
  · exact orNullStr_eq_join _ hos
  · exact orNullStr_eq_join _ hcpu
  · exact orNullNum_eq_join _ (valid_ram_ne_zero input hvalid)
  · exact orNullNum_eq_join _ (valid_storage_ne_zero input hvalid)
  · exact orNullStr_eq_join _ hnotes

/-- A valid create input exercising supplied values, supplied nulls and absent
fields together. -/
def fullCreateInput : CreateDeviceInput :=
  { name := "delta", type := DeviceType.storage,
    ip_address := some (some "10.0.0.1"), make := some (some "Dell"),
    model := some none, operating_system := none, cpu := some (some "Xeon"),
    ram := some (some 32), storage_capacity := none,
    status := DeviceStatus.online, notes := some none }

/-- Witness for C1 (amended) on the empty store and `fullCreateInput`. -/
theorem createDevice_getDeviceById_roundtrip_witness :
    ∃ d, getDeviceById (createDevice emptyDB fullCreateInput).2
        (createDevice emptyDB fullCreateInput).1.id = some d ∧
      d.name = fullCreateInput.name ∧ d.type = fullCreateInput.type ∧
      d.ip_address = fullCreateInput.ip_address.join ∧
      d.make = fullCreateInput.make.join ∧
      d.model = fullCreateInput.model.join ∧
      d.operating_system = fullCreateInput.operating_system.join ∧
      d.cpu = fullCreateInput.cpu.join ∧ d.ram = fullCreateInput.ram.join ∧
      d.storage_capacity = fullCreateInput.storage_capacity.join ∧
      d.status = fullCreateInput.status ∧
      d.notes = fullCreateInput.notes.join :=
  createDevice_getDeviceById_roundtrip emptyDB fullCreateInput (by decide)
    (by decide) (by decide) (by decide) (by decide) (by decide) (by decide)

/-- C5: updating an existing device with at least one supplied field (so in
particular with exactly one) patches exactly the matching row: the returned
row is the stored one, every unsupplied field — nullable ones included — keeps
its prior value, every supplied field takes the supplied value, id and
created_at are untouched, the rest of the table and the relationships are
untouched, and updated_at strictly advances. -/
theorem updateDevice_single_field_frame (db : DB) (input : UpdateDeviceInput)
    (d : Device) (hwf : WFDevices db) (hmem : d ∈ db.devices)
    (hid : d.id = input.id) (hone : hasUpdates input = true) :
    ∃ d2 db2, updateDevice db input = (some d2, db2) ∧
      db2.devices = db.devices.map (fun x => if x.id == input.id then d2 else x) ∧
      db2.relationships = db.relationships ∧
      d2.id = d.id ∧ d2.created_at = d.created_at ∧
      d.updated_at < d2.updated_at ∧
      ((input.name = none → d2.name = d.name) ∧
        (∀ v, input.name = some v → d2.name = v)) ∧
      ((input.type = none → d2.type = d.type) ∧
        (∀ v, input.type = some v → d2.type = v)) ∧
      ((input.ip_address = none → d2.ip_address = d.ip_address) ∧
        (∀ v, input.ip_address = some v → d2.ip_address = v)) ∧
      ((input.make = none → d2.make = d.make) ∧
        (∀ v, input.make = some v → d2.make = v)) ∧
      ((input.model = none → d2.model = d.model) ∧
        (∀ v, input.model = some v → d2.model = v)) ∧
      ((input.operating_system = none → d2.operating_system = d.operating_system) ∧
        (∀ v, input.operating_system = some v → d2.operating_system = v)) ∧
      ((input.cpu = none → d2.cpu = d.cpu) ∧
        (∀ v, input.cpu = some v → d2.cpu = v)) ∧
      ((input.ram = none → d2.ram = d.ram) ∧
        (∀ v, input.ram = some v → d2.ram = v)) ∧
      ((input.storage_capacity = none → d2.storage_capacity = d.storage_capacity) ∧
        (∀ v, input.storage_capacity = some v → d2.storage_capacity = v)) ∧
      ((input.status = none → d2.status = d.status) ∧
        (∀ v, input.status = some v → d2.status = v)) ∧
      ((input.notes = none → d2.notes = d.notes) ∧
        (∀ v, input.notes = some v → d2.notes = v)) := by
  obtain ⟨hbound, hnd, htime⟩ := hwf
  have hany : db.devices.any (fun x => x.id == input.id) = true := by
    rw [List.any_eq_true]
    exact ⟨d, hmem, by simp [hid]⟩
  have hffh := map_patch_filter_eq Device.id
    (fun x => applyDevicePatch x input (db.now + 1)) db.devices input.id
    (fun x => rfl) hnd d hmem hid
  have hcongr := map_patch_congr Device.id
    (fun x => applyDevicePatch x input (db.now + 1)) db.devices input.id
    hnd d hmem hid
  have h1 : (hasUpdates input = false) = False := by simp [hone]
  have hresult : updateDevice db input =
      (((db.devices.map (fun x => if x.id == input.id then applyDevicePatch x input (db.now + 1) else x)).filter (fun x => x.id == input.id)).head?,
       { db with
          devices := db.devices.map (fun x => if x.id == input.id then applyDevicePatch x input (db.now + 1) else x),
          now := db.now + 1 }) := by
    simp [updateDevice, h1, hany]
  rw [hresult, hffh]
  refine ⟨_, _, rfl, hcongr, rfl, rfl, rfl, ?_, ?_, ?_, ?_, ?_, ?_, ?_, ?_, ?_, ?_,
    ?_, ?_⟩
  · have := htime d hmem
    simp only [applyDevicePatch]
    omega
  all_goals
    exact ⟨fun h => by simp [applyDevicePatch, h],
      fun v h => by simp [applyDevicePatch, h]⟩

/-- An update input supplying only the status field. -/
def statusUpdInput : UpdateDeviceInput :=
  { id := 2, name := none, type := none, ip_address := none, make := none,
    model := none, operating_system := none, cpu := none, ram := none,
    storage_capacity := none, status := some DeviceStatus.maintenance,
    notes := none }

/-- Witness for C5: updating only the status of device 2 in the two-device
store patches that row alone with a strictly later timestamp. -/
theorem updateDevice_single_field_frame_witness :
    ∃ d2 db2, updateDevice twoDevDB statusUpdInput = (some d2, db2) ∧
      db2.devices = twoDevDB.devices.map
        (fun x => if x.id == statusUpdInput.id then d2 else x) ∧
      db2.relationships = twoDevDB.relationships ∧
      d2.id = devBeta.id ∧ d2.created_at = devBeta.created_at ∧
      devBeta.updated_at < d2.updated_at ∧
      ((statusUpdInput.name = none → d2.name = devBeta.name) ∧
        (∀ v, statusUpdInput.name = some v → d2.name = v)) ∧
      ((statusUpdInput.type = none → d2.type = devBeta.type) ∧
        (∀ v, statusUpdInput.type = some v → d2.type = v)) ∧
      ((statusUpdInput.ip_address = none → d2.ip_address = devBeta.ip_address) ∧
        (∀ v, statusUpdInput.ip_address = some v → d2.ip_address = v)) ∧
      ((statusUpdInput.make = none → d2.make = devBeta.make) ∧
        (∀ v, statusUpdInput.make = some v → d2.make = v)) ∧
      ((statusUpdInput.model = none → d2.model = devBeta.model) ∧
        (∀ v, statusUpdInput.model = some v → d2.model = v)) ∧
      ((statusUpdInput.operating_system = none →
          d2.operating_system = devBeta.operating_system) ∧
        (∀ v, statusUpdInput.operating_system = some v → d2.operating_system = v)) ∧
      ((statusUpdInput.cpu = none → d2.cpu = devBeta.cpu) ∧
        (∀ v, statusUpdInput.cpu = some v → d2.cpu = v)) ∧
      ((statusUpdInput.ram = none → d2.ram = devBeta.ram) ∧
        (∀ v, statusUpdInput.ram = some v → d2.ram = v)) ∧
      ((statusUpdInput.storage_capacity = none →
          d2.storage_capacity = devBeta.storage_capacity) ∧
        (∀ v, statusUpdInput.storage_capacity = some v → d2.storage_capacity = v)) ∧
      ((statusUpdInput.status = none → d2.status = devBeta.status) ∧
        (∀ v, statusUpdInput.status = some v → d2.status = v)) ∧
      ((statusUpdInput.notes = none → d2.notes = devBeta.notes) ∧
        (∀ v, statusUpdInput.notes = some v → d2.notes = v)) :=
  updateDevice_single_field_frame twoDevDB statusUpdInput devBeta
    ⟨by decide, by decide, by decide⟩ (by decide) rfl (by decide)

/-- C7: on a store whose relationships all reference existing devices,
deleting an existing device id succeeds, removes exactly the device rows with
that id, and the cascade removes exactly the relationships in which that id is
parent or child, leaving everything else in place; deleting a missing id
returns false and leaves the store untouched. -/
theorem deleteDevice_cascade_spec (db : DB) (id : Nat) (hinv : RelInvariant db) :
    ((∃ d ∈ db.devices, d.id = id) →
      (deleteDevice db id).1 = true ∧
      (∀ d, d ∈ (deleteDevice db id).2.devices ↔ d ∈ db.devices ∧ d.id ≠ id) ∧
      (∀ r, r ∈ (deleteDevice db id).2.relationships ↔
        r ∈ db.relationships ∧ r.parent_device_id ≠ id ∧
          r.child_device_id ≠ id)) ∧
    ((∀ d ∈ db.devices, d.id ≠ id) → deleteDevice db id = (false, db)) := by
  constructor
  · rintro ⟨d, hd, hdi⟩
    refine ⟨?_, ?_, ?_⟩
    · simp only [deleteDevice, List.any_eq_true]
      exact ⟨d, hd, by simp [hdi]⟩
    · intro x
      simp [deleteDevice, List.mem_filter]
    · intro r
      simp [deleteDevice, List.mem_filter, and_assoc]
  · intro h
    have hany : db.devices.any (fun d => d.id == id) = false := by
      rw [List.any_eq_false]
      intro x hx
      simp [h x hx]
    have h1 : db.devices.filter (fun d => d.id != id) = db.devices := by
      rw [List.filter_eq_self]
      intro x hx
      simpa using h x hx
    have h2 : db.relationships.filter
        (fun r => r.parent_device_id != id && r.child_device_id != id) =
        db.relationships := by
      rw [List.filter_eq_self]
      intro r hr
      obtain ⟨-, hpe, hce⟩ := hinv r hr
      rcases mem_of_deviceExists db r.parent_device_id hpe with ⟨dp, hdp, hdpi⟩
      rcases mem_of_deviceExists db r.child_device_id hce with ⟨dc, hdc, hdci⟩
      have hpne : r.parent_device_id ≠ id := fun he => h dp hdp (by rw [hdpi, he])
      have hcne : r.child_device_id ≠ id := fun he => h dc hdc (by rw [hdci, he])
      simp [hpne, hcne]
    simp only [deleteDevice, hany, h1, h2]

/-- Witness for C7: deleting the missing id 99 from the two-device store is a
false no-op, and deleting device 1 from the store with the 1-over-2
relationship succeeds and cascades that relationship away. -/
theorem deleteDevice_cascade_spec_witness :
    deleteDevice twoDevDB 99 = (false, twoDevDB) ∧
    (deleteDevice relDB 1).1 = true ∧
    (relAB ∈ (deleteDevice relDB 1).2.relationships ↔
      relAB ∈ relDB.relationships ∧ relAB.parent_device_id ≠ 1 ∧
        relAB.child_device_id ≠ 1) :=
  ⟨(deleteDevice_cascade_spec twoDevDB 99
      (by intro r hr; exact absurd hr (List.not_mem_nil r))).2 (by decide),
   ((deleteDevice_cascade_spec relDB 1
      (by intro r hr; rw [List.mem_singleton.mp hr]
          exact ⟨by decide, by decide, by decide⟩)).1
      ⟨devAlpha, by decide, rfl⟩).1,
   ((deleteDevice_cascade_spec relDB 1
      (by intro r hr; rw [List.mem_singleton.mp hr]
          exact ⟨by decide, by decide, by decide⟩)).1
      ⟨devAlpha, by decide, rfl⟩).2.2 relAB⟩

/-- An update-relationship input that would merge to the self-pair (99, 99)
but whose supplied ids reference no device. -/
def selfMissingUpdInput : UpdateDeviceRelationshipInput :=
  { id := 1, parent_device_id := some 99, child_device_id := some 99,
    relationship_type := none, description := none }

/-- Counterexample to C2 as stated: on the stored relationship 1, an update
whose post-update pair is the self-pair (99, 99) fails with the missing-parent
error, not the fixed self-relationship error, because the existence checks run
before the self check. -/
theorem relationship_self_error_counterexample :
    (relDB.relationships.filter
      (fun r => r.id == selfMissingUpdInput.id)).head? = some relAB ∧
    selfMissingUpdInput.parent_device_id.getD relAB.parent_device_id =
      selfMissingUpdInput.child_device_id.getD relAB.child_device_id ∧
    updateDeviceRelationship relDB selfMissingUpdInput =
      Except.error ("Parent device with ID " ++ toString (99 : Nat) ++
        " does not exist") ∧
    ("Parent device with ID " ++ toString (99 : Nat) ++ " does not exist" : String) ≠
      "A device cannot have a relationship with itself" :=
  ⟨rfl, rfl, rfl, by decide⟩

/-- C2 (amended): the create schema's structural refine rejects a parent equal
to the child before any device lookup (the predicate consults no store); and
updateDeviceRelationship on an existing relationship fails with the fixed
self-relationship error whenever the merged post-update pair is a self-pair,
provided each side actually supplied references an existing device (otherwise
the corresponding missing-device error fires first). -/
theorem relationship_self_rejection (i : CreateDeviceRelationshipInput)
    (db : DB) (input : UpdateDeviceRelationshipInput)
    (existing : DeviceRelationship)
    (hpc : i.parent_device_id = i.child_device_id)
    (hfound : (db.relationships.filter
      (fun r => r.id == input.id)).head? = some existing)
    (hp : ∀ pid, input.parent_device_id = some pid → deviceExists db pid = true)
    (hc : ∀ cid, input.child_device_id = some cid → deviceExists db cid = true)
    (hself : input.parent_device_id.getD existing.parent_device_id =
             input.child_device_id.getD existing.child_device_id) :
    validCreateDeviceRelationshipInput i = false ∧
    updateDeviceRelationship db input =
      Except.error "A device cannot have a relationship with itself" := by
  constructor
  · simp [validCreateDeviceRelationshipInput, hpc]
  · have h1 : relDeviceCheck db "Parent" input.parent_device_id = none := by
      cases hpd : input.parent_device_id with
      | none => rfl
      | some pid => simp [relDeviceCheck, hp pid hpd]
    have h2 : relDeviceCheck db "Child" input.child_device_id = none := by
      cases hcd : input.child_device_id with
      | none => rfl
      | some cid => simp [relDeviceCheck, hc cid hcd]
    unfold updateDeviceRelationship
    rw [hfound]
    simp only [h1, h2]
    unfold relSelfCheckAndApply
    have hb : (input.parent_device_id.getD existing.parent_device_id ==
        input.child_device_id.getD existing.child_device_id) = true := by
      simpa using hself
    simp [hb]

/-- A create-relationship input relating device 1 to itself. -/
def selfCreateRelInput : CreateDeviceRelationshipInput :=
  { parent_device_id := 1, child_device_id := 1,
    relationship_type := RelationshipType.hosted_on, description := none }

/-- An update that merges the stored relationship 1 to the self-pair (2, 2)
through the existing child. -/
def selfMergeUpdInput : UpdateDeviceRelationshipInput :=
  { id := 1, parent_device_id := some 2, child_device_id := none,
    relationship_type := none, description := none }

/-- Witness for C2 (amended): the self create input fails validation, and
merging relationship 1 to (2, 2) by supplying an existing parent fails with
the fixed self-relationship error. -/
theorem relationship_self_rejection_witness :
    validCreateDeviceRelationshipInput selfCreateRelInput = false ∧
    updateDeviceRelationship relDB selfMergeUpdInput =
      Except.error "A device cannot have a relationship with itself" :=
  relationship_self_rejection selfCreateRelInput relDB selfMergeUpdInput relAB
    rfl rfl
    (by intro pid h; injection h with h; subst h; decide)
    (by intro cid h; exact Option.noConfusion h)
    rfl

/-- An empty relationship `updateData` object means every field is absent. -/
theorem hasRelUpdates_false_fields (i : UpdateDeviceRelationshipInput)
    (h : hasRelUpdates i = false) :
    i.parent_device_id = none ∧ i.child_device_id = none ∧
    i.relationship_type = none ∧ i.description = none := by
  refine ⟨?_, ?_, ?_, ?_⟩
  · cases hx : i.parent_device_id with
    | none => rfl
    | some v => rw [hasRelUpdates, hx] at h; simp at h
  · cases hx : i.child_device_id with
    | none => rfl
    | some v => rw [hasRelUpdates, hx] at h; simp at h
  · cases hx : i.relationship_type with
    | none => rfl
    | some v => rw [hasRelUpdates, hx] at h; simp at h
  · cases hx : i.description with
    | none => rfl
    | some v => rw [hasRelUpdates, hx] at h; simp at h

/-- A passing side check on a supplied id means the device exists. -/
theorem relDeviceCheck_none (db : DB) (role : String) (oid : Option Nat)
    (h : relDeviceCheck db role oid = none) :
    ∀ i, oid = some i → deviceExists db i = true := by
  intro i hi
  subst hi
  rw [relDeviceCheck] at h
  by_cases hd : deviceExists db i = true
  · exact hd
  · rw [if_neg hd] at h
    exact Option.noConfusion h

/-- C9: updateDeviceRelationship returns null, not an error, when no
relationship row has the id; returns the stored row with the store untouched
when no field besides id is supplied (on a row satisfying the
no-self-relationship invariant); and otherwise, when its checks pass, applies
exactly the explicitly supplied fields to the matching row, leaving id,
created_at, every unsupplied field and every other row unchanged. -/
theorem updateDeviceRelationship_patch_spec (db : DB)
    (input : UpdateDeviceRelationshipInput) :
    ((db.relationships.filter (fun r => r.id == input.id)).head? = none →
      updateDeviceRelationship db input = Except.ok (none, db)) ∧
    (∀ existing,
      (db.relationships.filter (fun r => r.id == input.id)).head? = some existing →
      existing.parent_device_id ≠ existing.child_device_id →
      hasRelUpdates input = false →
      updateDeviceRelationship db input = Except.ok (some existing, db)) ∧
    (∀ existing,
      (db.relationships.filter (fun r => r.id == input.id)).head? = some existing →
      (db.relationships.map DeviceRelationship.id).Nodup →
      (∀ pid, input.parent_device_id = some pid → deviceExists db pid = true) →
      (∀ cid, input.child_device_id = some cid → deviceExists db cid = true) →
      input.parent_device_id.getD existing.parent_device_id ≠
        input.child_device_id.getD existing.child_device_id →
      hasRelUpdates input = true →
      ∃ r2, updateDeviceRelationship db input = Except.ok (some r2,
          { db with relationships := db.relationships.map (fun r => if r.id == input.id then r2 else r) }) ∧
        r2.id = existing.id ∧ r2.created_at = existing.created_at ∧
        (input.parent_device_id = none →
          r2.parent_device_id = existing.parent_device_id) ∧
        (∀ v, input.parent_device_id = some v → r2.parent_device_id = v) ∧
        (input.child_device_id = none →
          r2.child_device_id = existing.child_device_id) ∧
        (∀ v, input.child_device_id = some v → r2.child_device_id = v) ∧
        (input.relationship_type = none →
          r2.relationship_type = existing.relationship_type) ∧
        (∀ v, input.relationship_type = some v → r2.relationship_type = v) ∧
        (input.description = none → r2.description = existing.description) ∧
        (∀ v, input.description = some v → r2.description = v)) := by
  refine ⟨?_, ?_, ?_⟩
  · intro hnone
    unfold updateDeviceRelationship
    rw [hnone]
  · intro existing hfound hne hemp
    obtain ⟨hpn, hcn, htn, hdn⟩ := hasRelUpdates_false_fields input hemp
    have h1 : relDeviceCheck db "Parent" input.parent_device_id = none := by
      rw [hpn]; rfl
    have h2 : relDeviceCheck db "Child" input.child_device_id = none := by
      rw [hcn]; rfl
    unfold updateDeviceRelationship
    rw [hfound]
    simp only [h1, h2]
    unfold relSelfCheckAndApply
    have hb : (input.parent_device_id.getD existing.parent_device_id ==
        input.child_device_id.getD existing.child_device_id) = false := by
      rw [hpn, hcn]
      simpa using hne
    simp [hb, hemp]
  · intro existing hfound hnd hp hc hne hupd
    obtain ⟨hmem, hbeq⟩ := filter_head_some_mem _ _ _ hfound
    have hidE : existing.id = input.id := by simpa using hbeq
    have h1 : relDeviceCheck db "Parent" input.parent_device_id = none := by
      cases hpd : input.parent_device_id with
      | none => rfl
      | some pid => simp [relDeviceCheck, hp pid hpd]
    have h2 : relDeviceCheck db "Child" input.child_device_id = none := by
      cases hcd : input.child_device_id with
      | none => rfl
      | some cid => simp [relDeviceCheck, hc cid hcd]
    have hffh := map_patch_filter_eq DeviceRelationship.id
      (fun x => applyRelPatch x input) db.relationships input.id
      (fun x => rfl) hnd existing hmem hidE
    have hcongr := map_patch_congr DeviceRelationship.id
      (fun x => applyRelPatch x input) db.relationships input.id
      hnd existing hmem hidE
    have hb : (input.parent_device_id.getD existing.parent_device_id ==
        input.child_device_id.getD existing.child_device_id) = false := by
      simpa using hne
    have hu : (hasRelUpdates input = false) = False := by simp [hupd]
    unfold updateDeviceRelationship
    rw [hfound]
    simp only [h1, h2]
    unfold relSelfCheckAndApply
    simp only [hb, Bool.false_eq_true, if_false, hu]
    rw [hffh]
    refine ⟨applyRelPatch existing input, ?_, rfl, rfl, ?_, ?_, ?_, ?_, ?_, ?_,
      ?_, ?_⟩
    · rw [hcongr]
      rfl
    · intro h; simp [applyRelPatch, h]
    · intro v h; simp [applyRelPatch, h]
    · intro h; simp [applyRelPatch, h]
    · intro v h; simp [applyRelPatch, h]
    · intro h; simp [applyRelPatch, h]
    · intro v h; simp [applyRelPatch, h]
    · intro h; simp [applyRelPatch, h]
    · intro v h; simp [applyRelPatch, h]

/-- An update supplying only the relationship type. -/
def typeUpdRelInput : UpdateDeviceRelationshipInput :=
  { id := 1, parent_device_id := none, child_device_id := none,
    relationship_type := some RelationshipType.manages, description := none }

/-- Witness for C9: retyping relationship 1 patches exactly that field of that
row. -/
theorem updateDeviceRelationship_patch_spec_witness :
    ∃ r2, updateDeviceRelationship relDB typeUpdRelInput = Except.ok (some r2,
        { relDB with relationships := relDB.relationships.map (fun r => if r.id == typeUpdRelInput.id then r2 else r) }) ∧
      r2.id = relAB.id ∧ r2.created_at = relAB.created_at ∧
      (typeUpdRelInput.parent_device_id = none →
        r2.parent_device_id = relAB.parent_device_id) ∧
      (∀ v, typeUpdRelInput.parent_device_id = some v → r2.parent_device_id = v) ∧
      (typeUpdRelInput.child_device_id = none →
        r2.child_device_id = relAB.child_device_id) ∧
      (∀ v, typeUpdRelInput.child_device_id = some v → r2.child_device_id = v) ∧
      (typeUpdRelInput.relationship_type = none →
        r2.relationship_type = relAB.relationship_type) ∧
      (∀ v, typeUpdRelInput.relationship_type = some v →
        r2.relationship_type = v) ∧
      (typeUpdRelInput.description = none → r2.description = relAB.description) ∧
      (∀ v, typeUpdRelInput.description = some v → r2.description = v) :=
  (updateDeviceRelationship_patch_spec relDB typeUpdRelInput).2.2 relAB rfl
    (by decide)
    (by intro pid h; exact Option.noConfusion h)
    (by intro cid h; exact Option.noConfusion h)
    (by decide) (by decide)

/-- Well-formedness the storage engine maintains for relationship ids: below
the serial counter and pairwise distinct (primary key). -/
def WFRels (db : DB) : Prop :=
  (∀ r ∈ db.relationships, r.id < db.nextRelId) ∧
  (db.relationships.map DeviceRelationship.id).Nodup

/-- A schema-valid create-relationship input has distinct parent and child. -/
theorem valid_rel_parent_ne_child (i : CreateDeviceRelationshipInput)
    (h : validCreateDeviceRelationshipInput i = true) :
    i.parent_device_id ≠ i.child_device_id := by
  simp only [validCreateDeviceRelationshipInput, Bool.and_eq_true, bne_iff_ne,
    ne_eq] at h
  exact h.2

/-- Inserting a device preserves existence of any device id. -/
theorem deviceExists_createDevice (db : DB) (input : CreateDeviceInput) (x : Nat)
    (h : deviceExists db x = true) :
    deviceExists (createDevice db input).2 x = true := by
  show ((db.devices ++ [(createDevice db input).1]).any (fun d => d.id == x)) = true
  rw [List.any_append]
  rw [deviceExists] at h
  simp [h]

/-- Updating a device preserves existence of any device id (the patch keeps
row ids). -/
theorem deviceExists_updateDevice (db : DB) (input : UpdateDeviceInput) (x : Nat)
    (h : deviceExists db x = true) :
    deviceExists (updateDevice db input).2 x = true := by
  rcases mem_of_deviceExists db x h with ⟨d, hd, hdi⟩
  unfold updateDevice
  by_cases h1 : hasUpdates input = false
  · rw [if_pos h1]; exact h
  · rw [if_neg h1]
    by_cases h2 : (db.devices.any (fun d => d.id == input.id)) = true
    · rw [if_pos h2]
      show (db.devices.map (fun d => if d.id == input.id then applyDevicePatch d input (db.now + 1) else d)).any (fun d => d.id == x) = true
      rw [List.any_eq_true]
      refine ⟨_, List.mem_map_of_mem _ hd, ?_⟩
      by_cases hcond : (d.id == input.id) = true
      · simp only [hcond, if_true]
        simp [applyRelPatch, applyDevicePatch, hdi]
      · simp only [hcond, if_false]
        simp [hdi]
    · rw [if_neg h2]; exact h

/-- updateDevice never touches the relationships or the relationship counter. -/
theorem updateDevice_keeps_relationships (db : DB) (input : UpdateDeviceInput) :
    (updateDevice db input).2.relationships = db.relationships ∧
    (updateDevice db input).2.nextRelId = db.nextRelId := by
  unfold updateDevice
  by_cases h1 : hasUpdates input = false
  · rw [if_pos h1]; exact ⟨rfl, rfl⟩
  · rw [if_neg h1]
    by_cases h2 : (db.devices.any (fun d => d.id == input.id)) = true
    · rw [if_pos h2]; exact ⟨rfl, rfl⟩
    · rw [if_neg h2]; exact ⟨rfl, rfl⟩

/-- C8 auxiliary: every reachable store satisfies the relationship invariant
together with well-formed relationship ids. -/
theorem reachable_invariant_wf (db : DB) (h : Reachable db) :
    RelInvariant db ∧ WFRels db := by
  induction h with
  | empty =>
    exact ⟨fun r hr => absurd hr (List.not_mem_nil r),
      fun r hr => absurd hr (List.not_mem_nil r), List.nodup_nil⟩
  | createDev db input hreach hv ih =>
    obtain ⟨hinv, hbound, hnd⟩ := ih
    refine ⟨?_, ?_, ?_⟩
    · intro r hr
      obtain ⟨hne, hpe, hce⟩ := hinv r hr
      exact ⟨hne, deviceExists_createDevice db input _ hpe,
        deviceExists_createDevice db input _ hce⟩
    · intro r hr; exact hbound r hr
    · exact hnd
  | updateDev db input hreach ih =>
    obtain ⟨hinv, hbound, hnd⟩ := ih
    obtain ⟨hrel, hnri⟩ := updateDevice_keeps_relationships db input
    refine ⟨?_, ?_, ?_⟩
    · intro r hr
      rw [hrel] at hr
      obtain ⟨hne, hpe, hce⟩ := hinv r hr
      exact ⟨hne, deviceExists_updateDevice db input _ hpe,
        deviceExists_updateDevice db input _ hce⟩
    · intro r hr
      rw [hrel] at hr
      rw [hnri]
      exact hbound r hr
    · rw [hrel]; exact hnd
  | deleteDev db id hreach ih =>
    obtain ⟨hinv, hbound, hnd⟩ := ih
    refine ⟨?_, ?_, ?_⟩
    · intro r hr
      have hr' : r ∈ db.relationships.filter
          (fun r => r.parent_device_id != id && r.child_device_id != id) := hr
      obtain ⟨hrm, hpred⟩ := List.mem_filter.mp hr'
      obtain ⟨hne, hpe, hce⟩ := hinv r hrm
      simp only [Bool.and_eq_true, bne_iff_ne, ne_eq] at hpred
      refine ⟨hne, ?_, ?_⟩
      · rcases mem_of_deviceExists db r.parent_device_id hpe with ⟨dp, hdp, hdpi⟩
        show ((db.devices.filter (fun d => d.id != id)).any
          (fun d => d.id == r.parent_device_id)) = true
        rw [List.any_eq_true]
        refine ⟨dp, List.mem_filter.mpr ⟨hdp, ?_⟩, by simp [hdpi]⟩
        simp only [bne_iff_ne, ne_eq, hdpi]
        exact hpred.1
      · rcases mem_of_deviceExists db r.child_device_id hce with ⟨dc, hdc, hdci⟩
        show ((db.devices.filter (fun d => d.id != id)).any
          (fun d => d.id == r.child_device_id)) = true
        rw [List.any_eq_true]
        refine ⟨dc, List.mem_filter.mpr ⟨hdc, ?_⟩, by simp [hdci]⟩
        simp only [bne_iff_ne, ne_eq, hdci]
        exact hpred.2
    · intro r hr
      have hr' : r ∈ db.relationships.filter
          (fun r => r.parent_device_id != id && r.child_device_id != id) := hr
      exact hbound r (List.mem_filter.mp hr').1
    · exact List.Nodup.sublist
        (List.Sublist.map _ (List.filter_sublist _)) hnd
  | deleteRel db id hreach ih =>
    obtain ⟨hinv, hbound, hnd⟩ := ih
    refine ⟨?_, ?_, ?_⟩
    · intro r hr
      have hr' : r ∈ db.relationships.filter (fun r => r.id != id) := hr
      exact hinv r (List.mem_filter.mp hr').1
    · intro r hr
      have hr' : r ∈ db.relationships.filter (fun r => r.id != id) := hr
      exact hbound r (List.mem_filter.mp hr').1
    · exact List.Nodup.sublist
        (List.Sublist.map _ (List.filter_sublist _)) hnd
  | createRel db input r db2 hreach hv hok ih =>
    obtain ⟨hinv, hbound, hnd⟩ := ih
    cases hbp : deviceExists db input.parent_device_id with
    | false => simp [createDeviceRelationship, hbp] at hok
    | true =>
    cases hbc : deviceExists db input.child_device_id with
    | false => simp [createDeviceRelationship, hbp, hbc] at hok
    | true =>
    simp only [createDeviceRelationship, hbp, hbc, Bool.true_eq_false,
      if_false, Except.ok.injEq, Prod.mk.injEq] at hok
    obtain ⟨hr, hdb⟩ := hok
    subst hr
    subst hdb
    refine ⟨?_, ?_, ?_⟩
    · intro r2 hr2
      rcases List.mem_append.mp hr2 with h2 | h2
      · obtain ⟨hne, hpe, hce⟩ := hinv r2 h2
        exact ⟨hne, hpe, hce⟩
      · rw [List.mem_singleton.mp h2]
        exact ⟨valid_rel_parent_ne_child input hv, hbp, hbc⟩
    · intro r2 hr2
      rcases List.mem_append.mp hr2 with h2 | h2
      · exact Nat.lt_succ_of_lt (hbound r2 h2)
      · rw [List.mem_singleton.mp h2]
        exact Nat.lt_succ_self _
    · show ((db.relationships ++ [_]).map DeviceRelationship.id).Nodup
      rw [List.map_append]
      refine List.Nodup.append hnd (List.nodup_singleton _) ?_
      intro a ha hb
      simp only [List.map_cons, List.map_nil, List.mem_singleton] at hb
      subst hb
      rcases List.mem_map.mp ha with ⟨r3, hr3, hr3id⟩
      exact absurd hr3id (Nat.ne_of_lt (hbound r3 hr3))
  | updateRel db input res db2 hreach hok ih =>
    obtain ⟨hinv, hbound, hnd⟩ := ih
    unfold updateDeviceRelationship at hok
    split at hok
    · injection hok with hok
      injection hok with hres hdb
      subst hdb
      exact ⟨hinv, hbound, hnd⟩
    · rename_i existing hfound
      split at hok
      · exact absurd hok (by simp)
      · rename_i hpchk
        split at hok
        · exact absurd hok (by simp)
        · rename_i hcchk
          unfold relSelfCheckAndApply at hok
          split at hok
          · exact absurd hok (by simp)
          · rename_i hself
            split at hok
            · injection hok with hok
              injection hok with hres hdb
              subst hdb
              exact ⟨hinv, hbound, hnd⟩
            · rename_i hupd
              injection hok with hok
              injection hok with hres hdb
              subst hdb
              obtain ⟨hmem, hbeqE⟩ := filter_head_some_mem _ _ _ hfound
              have hidE : existing.id = input.id := by simpa using hbeqE
              refine ⟨?_, ?_, ?_⟩
              · intro r2 hr2
                rcases List.mem_map.mp hr2 with ⟨r0, hr0, hgr⟩
                by_cases hcond : (r0.id == input.id) = true
                · have hr0E : r0 = existing := by
                    refine nodup_key_unique DeviceRelationship.id
                      db.relationships hnd r0 existing hr0 hmem ?_
                    rw [hidE]
                    simpa using hcond
                  rw [if_pos hcond] at hgr
                  subst hgr
                  subst hr0E
                  refine ⟨?_, ?_, ?_⟩
                  · show input.parent_device_id.getD r0.parent_device_id ≠
                      input.child_device_id.getD r0.child_device_id
                    intro heq
                    exact hself (by simpa using heq)
                  · show deviceExists _ ((applyRelPatch r0 input).parent_device_id) = true
                    cases hpd : input.parent_device_id with
                    | none =>
                      have : (applyRelPatch r0 input).parent_device_id =
                          r0.parent_device_id := by simp [applyRelPatch, hpd]
                      rw [this]
                      exact (hinv r0 hmem).2.1
                    | some pid =>
                      have : (applyRelPatch r0 input).parent_device_id = pid := by
                        simp [applyRelPatch, hpd]
                      rw [this]
                      exact relDeviceCheck_none db "Parent"
                        input.parent_device_id hpchk pid hpd
                  · show deviceExists _ ((applyRelPatch r0 input).child_device_id) = true
                    cases hcd : input.child_device_id with
                    | none =>
                      have : (applyRelPatch r0 input).child_device_id =
                          r0.child_device_id := by simp [applyRelPatch, hcd]
                      rw [this]
                      exact (hinv r0 hmem).2.2
                    | some cid =>
                      have : (applyRelPatch r0 input).child_device_id = cid := by
                        simp [applyRelPatch, hcd]
                      rw [this]
                      exact relDeviceCheck_none db "Child"
                        input.child_device_id hcchk cid hcd
                · rw [if_neg hcond] at hgr
                  subst hgr
                  exact hinv r0 hr0
              · intro r2 hr2
                rcases List.mem_map.mp hr2 with ⟨r0, hr0, hgr⟩
                have hid2 : r2.id = r0.id := by
                  by_cases hcond : (r0.id == input.id) = true
                  · rw [if_pos hcond] at hgr
                    rw [← hgr]
                    rfl
                  · rw [if_neg hcond] at hgr
                    rw [← hgr]
                rw [hid2]
                exact hbound r0 hr0
              · have hmapid : ((db.relationships.map
                    (fun r => if r.id == input.id then applyRelPatch r input else r)).map
                      DeviceRelationship.id) =
                    db.relationships.map DeviceRelationship.id := by
                  rw [List.map_map]
                  apply List.map_congr_left
                  intro x hx
                  by_cases hcond : (x.id == input.id) = true
                  · simp [Function.comp, hcond, applyRelPatch]
                  · simp [Function.comp, hcond]
                show ((db.relationships.map
                  (fun r => if r.id == input.id then applyRelPatch r input else r)).map
                    DeviceRelationship.id).Nodup
                rw [hmapid]
                exact hnd

/-- C8: every store reachable through the API operations (each mutating input
validated by its schema at the router) satisfies the relationship invariant:
no relationship row relates a device to itself, and both its parent and child
ids reference an existing device row — device deletion keeping it through the
cascade removal of dependent relationships. -/
theorem reachable_stores_satisfy_invariant (db : DB) (h : Reachable db) :
    RelInvariant db :=
  (reachable_invariant_wf db h).1

/-- A minimal create input that produces device alpha on the empty store. -/
def minimalA : CreateDeviceInput :=
  { name := "alpha", type := DeviceType.physical_server, ip_address := none,
    make := none, model := none, operating_system := none, cpu := none,
    ram := none, storage_capacity := none, status := DeviceStatus.offline,
    notes := none }

/-- A minimal create input that produces device beta as the second device. -/
def minimalB : CreateDeviceInput :=
  { name := "beta", type := DeviceType.virtual_machine, ip_address := none,
    make := none, model := none, operating_system := none, cpu := none,
    ram := none, storage_capacity := none, status := DeviceStatus.offline,
    notes := none }

/-- A create input relating device 1 over device 2. -/
def hostRelInput : CreateDeviceRelationshipInput :=
  { parent_device_id := 1, child_device_id := 2,
    relationship_type := RelationshipType.hosted_on, description := none }

/-- The relationship row created by `hostRelInput` on the two-device store. -/
def relCreated : DeviceRelationship :=
  { id := 1, parent_device_id := 1, child_device_id := 2,
    relationship_type := RelationshipType.hosted_on, description := none,
    created_at := 3 }

/-- The store reached by creating devices 1 and 2 and then the 1-over-2
relationship. -/
def relCreatedDB : DB :=
  { devices := [devAlpha, devBeta], relationships := [relCreated],
    nextDeviceId := 3, nextRelId := 2, now := 3 }

/-- Witness for C8: the concrete store reached by two device creations
followed by a relationship creation satisfies the invariant. -/
theorem reachable_stores_satisfy_invariant_witness :
    RelInvariant relCreatedDB :=
  reachable_stores_satisfy_invariant relCreatedDB
    (Reachable.createRel twoDevDB hostRelInput relCreated relCreatedDB
      (Reachable.createDev (createDevice emptyDB minimalA).2 minimalB
        (Reachable.createDev emptyDB minimalA Reachable.empty (by decide))
        (by decide))
      (by decide) rfl)
